import Mathlib

/-!
Verification of the Gauss-Newton optimizer policy layer
(gtsam/nonlinear/GaussNewtonOptimizer.h).

The header defines `GaussNewtonParams` (elimination strategy, factorization
kind, elimination ordering, with a diagnostic `print`) and
`GaussNewtonOptimizer` (constructors, `update`, `clone`, and the declaration
of `iterate`).  The base class `NonlinearOptimizer` (holding the shared
graph/values/params pointers together with `error` and `iterations`) and the
body of `iterate` are not part of the available sources; they are modelled
from the specification, as marked on each such definition.

Shared pointers are modelled with a small heap: each `boost::shared_ptr`
becomes an address (`Addr`) into a `Heap` holding the graph, values and
params objects.  Reference identity of two shared pointers is equality of
their addresses.  Operations that allocate fresh objects (`new` in the C++
source) append to the heap, so an address allocated by a call is distinct
from every address that was live before the call.

The external capabilities consumed by the optimizer (linearization,
ordering heuristic, elimination/factorization kernel, retraction, error
evaluation) are out of scope of the header and are abstracted as a record
of functions (`Caps`) over abstract data handles.
-/

namespace GtsamGN

/-- Variable identifier (a key of the factor graph). -/
abbrev Key := Nat

/-- Abstract handle for the data of a nonlinear factor graph.  The optimizer
layer never inspects graph internals; it only passes the graph to external
capabilities, so an abstract handle is a faithful model. -/
abbrev GraphData := Nat

/-- Abstract handle for the data of a variable-assignment container. -/
abbrev ValuesData := Nat

/-- Abstract handle for a linearized (Gaussian) factor graph. -/
abbrev LinGraph := Nat

/-- Abstract handle for a correction vector (one tangent-space delta per
variable). -/
abbrev Delta := Nat

/-- Address of a heap-allocated shared object; models the identity of a
`boost::shared_ptr` target. -/
abbrev Addr := Nat

/-- The `GaussNewtonParams::Elimination` enum: MULTIFRONTAL, SEQUENTIAL. -/
inductive Elimination where
  | MULTIFRONTAL
  | SEQUENTIAL
  deriving DecidableEq, Repr

/-- The `GaussNewtonParams::Factorization` enum.  Its declared values are
exactly LDL and QR; `CHOLESKY`, referenced in the print logic, is not a
member of this enum. -/
inductive Factorization where
  | LDL
  | QR
  deriving DecidableEq, Repr

/-- The Gauss-Newton specific fields of `GaussNewtonParams`: elimination
algorithm, numerical factorization, and the variable elimination ordering.
Inherited generic fields of `NonlinearOptimizerParams` (convergence
thresholds, iteration caps) are external and never read by this layer, so
they are omitted. -/
structure GaussNewtonParams where
  elimination : Elimination
  factorization : Factorization
  ordering : List Key
  deriving DecidableEq, Repr

/-- The default constructor `GaussNewtonParams()`: the member initializer
list sets `elimination(MULTIFRONTAL), factorization(LDL)`.  Modelled from the
spec: the `Ordering` member is default-constructed by code outside the
available sources; the spec states the default ordering is empty. -/
def GaussNewtonParams.mkDefault : GaussNewtonParams :=
  { elimination := Elimination.MULTIFRONTAL
    factorization := Factorization.LDL
    ordering := [] }

/-- A params object as stored behind a base-class `SharedParams` pointer:
its dynamic type is either `GaussNewtonParams` or some other subclass of
`NonlinearOptimizerParams` (abstracted by a tag). -/
inductive ParamsObj where
  | gn (p : GaussNewtonParams)
  | other (tag : Nat)
  deriving DecidableEq, Repr

/-- The heap of shared objects.  Graph, values and params objects live in
three address spaces; an address is an index into the corresponding list,
and allocation appends. -/
structure Heap where
  graphs : List GraphData
  values : List ValuesData
  params : List ParamsObj
  deriving DecidableEq, Repr

/-- Dereference a graph address (shared_ptr target). -/
def Heap.graphAt (h : Heap) (a : Addr) : GraphData :=
  h.graphs.getD a 0

/-- Dereference a values address (shared_ptr target). -/
def Heap.valuesAt (h : Heap) (a : Addr) : ValuesData :=
  h.values.getD a 0

/-- Dereference a params address (shared_ptr target). -/
def Heap.paramsAt (h : Heap) (a : Addr) : ParamsObj :=
  h.params.getD a (ParamsObj.other 0)

/-- Dereference a params address through a `SharedGNParams` typed pointer;
along every constructor path of the header such a pointer targets a
`GaussNewtonParams` object, so the `other` branch is dead and only supplies
totality. -/
def Heap.gnParamsAt (h : Heap) (a : Addr) : GaussNewtonParams :=
  match h.paramsAt a with
  | ParamsObj.gn p => p
  | ParamsObj.other _ => GaussNewtonParams.mkDefault

/-- Allocate a fresh graph object (`new NonlinearFactorGraph(...)`). -/
def Heap.allocGraph (h : Heap) (g : GraphData) : Heap × Addr :=
  ({ h with graphs := h.graphs ++ [g] }, h.graphs.length)

/-- Allocate a fresh values object (`new Values(...)`). -/
def Heap.allocValues (h : Heap) (v : ValuesData) : Heap × Addr :=
  ({ h with values := h.values ++ [v] }, h.values.length)

/-- Allocate a fresh params object (`new GaussNewtonParams(...)`). -/
def Heap.allocParams (h : Heap) (p : ParamsObj) : Heap × Addr :=
  ({ h with params := h.params ++ [p] }, h.params.length)

/-- Errors surfaced by a solve, from the spec taxonomy (section 7):
ConfigurationMismatch, LinearizationFailure, SingularSystem. -/
inductive SolveError where
  | ConfigurationMismatch
  | LinearizationFailure
  | SingularSystem
  deriving DecidableEq, Repr

/-- External capabilities consumed by the optimizer core (spec section 6):
graph key enumeration and error evaluation, linearization, the ordering
heuristic, the elimination/factorization kernel, and manifold retraction.
Error values are modelled as exact rationals in place of float64. -/
structure Caps where
  graphKeys : GraphData → List Key
  errorAt : GraphData → ValuesData → ℚ
  linearize : GraphData → ValuesData → Except SolveError LinGraph
  computeOrdering : LinGraph → List Key
  eliminate : LinGraph → List Key → Elimination → Factorization → Except SolveError Delta
  retract : ValuesData → Delta → ValuesData

/-- Boolean test that two key lists contain exactly the same set of keys. -/
def sameKeySet (a b : List Key) : Bool :=
  a.all (fun k => b.contains k) && b.all (fun k => a.contains k)

/-- The optimizer state: shared pointers to graph, values and params
(addresses into the heap), plus the total error and the iteration count.
In the header the base-class field `params_` and the derived field
`gnParams_` always hold the same pointer (the derived constructors pass the
one pointer to both), so a single `params_` field models both. -/
structure GaussNewtonOptimizer where
  graph_ : Addr
  values_ : Addr
  params_ : Addr
  error_ : ℚ
  iterations_ : Int
  deriving DecidableEq, Repr

/-- The protected constructor
`GaussNewtonOptimizer(graph, values, params, error, iterations)`: all five
fields are taken as given (the base constructor with explicit error and
iteration count stores them unchanged). -/
def mkWithErrorIter (ga va pa : Addr) (e : ℚ) (it : Int) : GaussNewtonOptimizer :=
  { graph_ := ga, values_ := va, params_ := pa, error_ := e, iterations_ := it }

/-- The public by-value constructor
`GaussNewtonOptimizer(graph, values, params)`: copies the three plain
objects into freshly allocated shared objects.  Modelled from the spec: the
delegated base constructor `NonlinearOptimizer(graph, values, params)` is
outside the available sources; per the spec the initial state's `error` is
the objective evaluated at the given graph and values, and `iterations`
(the count of completed steps) starts at 0.  No validation of the ordering
against the graph happens here. -/
def mkGaussNewtonOptimizer (caps : Caps) (h : Heap) (g : GraphData)
    (v : ValuesData) (p : GaussNewtonParams) : Heap × GaussNewtonOptimizer :=
  let (h1, ga) := h.allocGraph g
  let (h2, va) := h1.allocValues v
  let (h3, pa) := h2.allocParams (ParamsObj.gn p)
  (h3, { graph_ := ga, values_ := va, params_ := pa,
         error_ := caps.errorAt g v, iterations_ := 0 })

/-- The public shared-pointer constructor
`GaussNewtonOptimizer(graph, values, params)` taking shared pointers: stores
the given addresses without copying.  Modelled from the spec: the delegated
base constructor is outside the available sources; error starts as the
objective at the given graph and values, iterations at 0. -/
def mkGaussNewtonOptimizerShared (caps : Caps) (h : Heap)
    (ga va pa : Addr) : GaussNewtonOptimizer :=
  { graph_ := ga, values_ := va, params_ := pa,
    error_ := caps.errorAt (h.graphAt ga) (h.valuesAt va), iterations_ := 0 }

/-- The protected update constructor
`GaussNewtonOptimizer(original, newGraph, newValues, newParams)`: each empty
(none) argument keeps the original's pointer; `gnParams_` is
`newParams ? newParams : original.gnParams_` as in the header.  Modelled
from the spec: the delegated base constructor
`NonlinearOptimizer(original, newGraph, newValues, newParams)` is outside
the available sources; per the spec invariant the error of the new state is
the objective at its own graph and values, so it is recomputed whenever the
graph or the values were replaced, and kept otherwise; the iteration count
(completed steps) is unchanged. -/
def updateCtor (caps : Caps) (h : Heap) (original : GaussNewtonOptimizer)
    (newGraph newValues newParams : Option Addr) : GaussNewtonOptimizer :=
  let ga := newGraph.getD original.graph_
  let va := newValues.getD original.values_
  let pa := newParams.getD original.params_
  { graph_ := ga, values_ := va, params_ := pa
    error_ :=
      if newGraph.isSome || newValues.isSome then
        caps.errorAt (h.graphAt ga) (h.valuesAt va)
      else original.error_
    iterations_ := original.iterations_ }

/-- Model of `boost::dynamic_pointer_cast<GaussNewtonParams>` on a base
`SharedParams` pointer: an empty pointer stays empty; a pointer to an object
whose dynamic type is `GaussNewtonParams` is returned unchanged (same
address); a pointer to any other params subclass yields an empty pointer. -/
def dynCastGN (h : Heap) (p : Option Addr) : Option Addr :=
  match p with
  | none => none
  | some a =>
    match h.paramsAt a with
    | ParamsObj.gn _ => some a
    | ParamsObj.other _ => none

/-- The `update` member function: defaults all three arguments to empty
pointers and delegates to the update constructor, dynamic-casting the
base-typed `newParams` to `GaussNewtonParams` first. -/
def GaussNewtonOptimizer.update (caps : Caps) (h : Heap)
    (s : GaussNewtonOptimizer)
    (newGraph newValues newParams : Option Addr) : GaussNewtonOptimizer :=
  updateCtor caps h s newGraph newValues (dynCastGN h newParams)

/-- The `clone` member function: `new GaussNewtonOptimizer(*this)` invokes
the implicit copy constructor, which copies every member (the shared
pointers are copied, so the copy references the same objects). -/
def GaussNewtonOptimizer.clone (s : GaussNewtonOptimizer) : GaussNewtonOptimizer :=
  { graph_ := s.graph_, values_ := s.values_, params_ := s.params_,
    error_ := s.error_, iterations_ := s.iterations_ }

/-- Modelled from the spec: the body of `iterate` (declared in the header,
defined outside the available sources).  Following spec section 4.2 and the
error taxonomy of section 7: a non-empty configured ordering whose key set
differs from the graph's keys is a ConfigurationMismatch detected at solve
time; otherwise linearize around the current values, resolve the ordering
(configured one if non-empty, else the fill-reducing heuristic), eliminate
with the configured strategy and factorization, retract the correction,
evaluate the error at the new values, and return a new optimizer holding a
freshly allocated values object, the new error, the incremented iteration
count, and the same graph and params pointers. -/
def GaussNewtonOptimizer.iterate (caps : Caps) (h : Heap)
    (s : GaussNewtonOptimizer) :
    Except SolveError (Heap × GaussNewtonOptimizer) :=
  let g := h.graphAt s.graph_
  let v := h.valuesAt s.values_
  let p := h.gnParamsAt s.params_
  if !p.ordering.isEmpty && !sameKeySet p.ordering (caps.graphKeys g) then
    Except.error SolveError.ConfigurationMismatch
  else
    match caps.linearize g v with
    | Except.error e => Except.error e
    | Except.ok lin =>
      let ord := if p.ordering.isEmpty then caps.computeOrdering lin else p.ordering
      match caps.eliminate lin ord p.elimination p.factorization with
      | Except.error e => Except.error e
      | Except.ok delta =>
        let v2 := caps.retract v delta
        let e2 := caps.errorAt g v2
        let (h2, va) := h.allocValues v2
        Except.ok (h2, mkWithErrorIter s.graph_ va s.params_ e2 (s.iterations_ + 1))

/-- The factorization branch of `GaussNewtonParams::print`, as the line it
selects.  The source chain tests `LDL`, then `QR`, then `CHOLESKY`, then
falls through to an invalid marker.  `CHOLESKY` is not a member of the
`Factorization` enum declared in the header; whatever constant that name
resolves to is modelled by an arbitrary predicate `isCholesky`, so the
theorem about this function holds for every possible resolution. -/
def factorizationLine (isCholesky : Factorization → Bool)
    (f : Factorization) : String :=
  if f = Factorization.LDL then "       factorization method: LDL\n"
  else if f = Factorization.QR then "       factorization method: QR\n"
  else if isCholesky f then "       factorization method: CHOLESKY\n"
  else "       factorization method: (invalid)\n"

/-- States reachable by the optimizer lifecycle (spec section 3): initial
construction from plain objects, a successful iterate step, or an update
with any combination of replaced graph/values/params (each replacement a
pointer into the heap or empty). -/
inductive Reachable (caps : Caps) : Heap → GaussNewtonOptimizer → Prop where
  | mk (h : Heap) (g : GraphData) (v : ValuesData) (p : GaussNewtonParams) :
      Reachable caps (mkGaussNewtonOptimizer caps h g v p).1
        (mkGaussNewtonOptimizer caps h g v p).2
  | step (h : Heap) (s : GaussNewtonOptimizer) (h' : Heap)
      (s' : GaussNewtonOptimizer) :
      Reachable caps h s →
      GaussNewtonOptimizer.iterate caps h s = Except.ok (h', s') →
      Reachable caps h' s'
  | update (h : Heap) (s : GaussNewtonOptimizer)
      (newGraph newValues newParams : Option Addr) :
      Reachable caps h s →
      Reachable caps h (GaussNewtonOptimizer.update caps h s newGraph newValues newParams)

/-! Helper lemmas about heap lookups after allocation. -/

theorem getD_append_of_lt {α : Type} (l l2 : List α) (n : Nat) (d : α)
    (hn : n < l.length) : (l ++ l2).getD n d = l.getD n d := by
  simp [List.getD, List.getElem?_append, hn]

theorem getD_append_len {α : Type} (l : List α) (x : α) (d : α) :
    (l ++ [x]).getD l.length d = x := by
  simp [List.getD, List.getElem?_append]

/-- Looking up the three fresh objects allocated by the public by-value
constructor returns exactly the supplied graph, values and params. -/
theorem mk_lookups (caps : Caps) (h : Heap) (g : GraphData) (v : ValuesData)
    (p : GaussNewtonParams) :
    (mkGaussNewtonOptimizer caps h g v p).1.graphAt
        (mkGaussNewtonOptimizer caps h g v p).2.graph_ = g ∧
    (mkGaussNewtonOptimizer caps h g v p).1.valuesAt
        (mkGaussNewtonOptimizer caps h g v p).2.values_ = v ∧
    (mkGaussNewtonOptimizer caps h g v p).1.paramsAt
        (mkGaussNewtonOptimizer caps h g v p).2.params_ = ParamsObj.gn p := by
  refine ⟨?_, ?_, ?_⟩ <;>
    simp [mkGaussNewtonOptimizer, Heap.allocGraph, Heap.allocValues,
      Heap.allocParams, Heap.graphAt, Heap.valuesAt, Heap.paramsAt,
      getD_append_len]

/-! Concrete fixtures used by the witness theorems. -/

/-- A concrete capability instance: graph handle g has the single key g,
the error encodes both handles, linearization and elimination always
succeed, retraction adds the delta handle. -/
def testCaps : Caps where
  graphKeys := fun g => [g]
  errorAt := fun g v => ((g * 100 + v : Nat) : ℚ)
  linearize := fun g v => Except.ok (g + v)
  computeOrdering := fun lin => [lin]
  eliminate := fun lin ord _ _ => Except.ok (lin + ord.length)
  retract := fun v d => v + d

/-- The empty heap. -/
def testHeap0 : Heap := { graphs := [], values := [], params := [] }

/-- The heap after constructing an optimizer on graph 7, values 3, default
params, starting from the empty heap. -/
def testHeapA : Heap :=
  { graphs := [7], values := [3], params := [ParamsObj.gn GaussNewtonParams.mkDefault] }

/-- The optimizer state constructed on graph 7, values 3, default params:
error 7 * 100 + 3 = 703, zero iterations. -/
def testStateA : GaussNewtonOptimizer :=
  { graph_ := 0, values_ := 0, params_ := 0, error_ := 703, iterations_ := 0 }

/-- The heap after one iterate from testStateA: a fresh values object 14
(retract 3 (10 + 1)) has been allocated. -/
def testHeapB : Heap :=
  { graphs := [7], values := [3, 14], params := [ParamsObj.gn GaussNewtonParams.mkDefault] }

/-- The state after one iterate from testStateA: fresh values address 1,
error 7 * 100 + 14 = 714, one iteration. -/
def testStateB : GaussNewtonOptimizer :=
  { graph_ := 0, values_ := 1, params_ := 0, error_ := 714, iterations_ := 1 }

/-- A heap holding one params object whose dynamic type is not
GaussNewtonParams (tag 5). -/
def testHeapOther : Heap :=
  { graphs := [7], values := [3],
    params := [ParamsObj.gn GaussNewtonParams.mkDefault, ParamsObj.other 5] }

/-! Claim theorems. -/

/-- C6: a default-constructed GaussNewtonParams has
eliminationStrategy = MULTIFRONTAL, factorizationKind = LDL, and an empty
ordering. -/
theorem gaussNewtonParams_default_fields :
    GaussNewtonParams.mkDefault.elimination = Elimination.MULTIFRONTAL ∧
    GaussNewtonParams.mkDefault.factorization = Factorization.LDL ∧
    GaussNewtonParams.mkDefault.ordering = [] :=
  ⟨rfl, rfl, rfl⟩

/-- C8: the Factorization enum is the closed set LDL, QR, and for every
value and for every possible resolution of the CHOLESKY identifier the
print logic selects the LDL or the QR line, so the CHOLESKY and (invalid)
branches are unreachable. -/
theorem factorization_closed_print_total (isCholesky : Factorization → Bool)
    (f : Factorization) :
    (f = Factorization.LDL ∨ f = Factorization.QR) ∧
    (factorizationLine isCholesky f = "       factorization method: LDL\n" ∨
     factorizationLine isCholesky f = "       factorization method: QR\n") := by
  cases f <;> simp [factorizationLine]

/-- C7: clone returns a state referencing the same graph, values and
params objects and carrying the same error and iteration count as the
input state. -/
theorem clone_equivalent (s : GaussNewtonOptimizer) :
    s.clone.graph_ = s.graph_ ∧
    s.clone.values_ = s.values_ ∧
    s.clone.params_ = s.params_ ∧
    s.clone.error_ = s.error_ ∧
    s.clone.iterations_ = s.iterations_ :=
  ⟨rfl, rfl, rfl, rfl, rfl⟩

/-- C4: update with all three arguments omitted (empty shared pointers)
returns a state whose graph, values and params addresses are identical to
the input state's; it acts as the identity on all shared fields. -/
theorem update_no_args_shares_all (caps : Caps) (h : Heap)
    (s : GaussNewtonOptimizer) :
    (GaussNewtonOptimizer.update caps h s none none none).graph_ = s.graph_ ∧
    (GaussNewtonOptimizer.update caps h s none none none).values_ = s.values_ ∧
    (GaussNewtonOptimizer.update caps h s none none none).params_ = s.params_ :=
  ⟨rfl, rfl, rfl⟩

/-- C5: replacing exactly one of graph, values or config through update
sets that field to the supplied pointer and leaves the other two fields
reference-identical to the input state's.  For the config case the supplied
pointer must target an object of dynamic type GaussNewtonParams, as the
update path dynamic-casts it. -/
theorem update_selective_replacement (caps : Caps) (h : Heap)
    (s : GaussNewtonOptimizer) (ga va pa : Addr) (p : GaussNewtonParams)
    (hpa : h.paramsAt pa = ParamsObj.gn p) :
    ((GaussNewtonOptimizer.update caps h s (some ga) none none).graph_ = ga ∧
     (GaussNewtonOptimizer.update caps h s (some ga) none none).values_ = s.values_ ∧
     (GaussNewtonOptimizer.update caps h s (some ga) none none).params_ = s.params_) ∧
    ((GaussNewtonOptimizer.update caps h s none (some va) none).values_ = va ∧
     (GaussNewtonOptimizer.update caps h s none (some va) none).graph_ = s.graph_ ∧
     (GaussNewtonOptimizer.update caps h s none (some va) none).params_ = s.params_) ∧
    ((GaussNewtonOptimizer.update caps h s none none (some pa)).params_ = pa ∧
     (GaussNewtonOptimizer.update caps h s none none (some pa)).graph_ = s.graph_ ∧
     (GaussNewtonOptimizer.update caps h s none none (some pa)).values_ = s.values_) := by
  refine ⟨⟨rfl, rfl, rfl⟩, ⟨rfl, rfl, rfl⟩, ?_, rfl, rfl⟩
  simp [GaussNewtonOptimizer.update, dynCastGN, hpa, updateCtor]

/-- C5 witness: in a concrete heap whose address 0 holds a
GaussNewtonParams object, the selective replacements behave as stated. -/
theorem update_selective_replacement_witness :
    testHeapA.paramsAt 0 = ParamsObj.gn GaussNewtonParams.mkDefault ∧
    ((GaussNewtonOptimizer.update testCaps testHeapA testStateA (some 9) none none).graph_ = 9 ∧
     (GaussNewtonOptimizer.update testCaps testHeapA testStateA (some 9) none none).values_ = testStateA.values_ ∧
     (GaussNewtonOptimizer.update testCaps testHeapA testStateA (some 9) none none).params_ = testStateA.params_) ∧
    ((GaussNewtonOptimizer.update testCaps testHeapA testStateA none (some 9) none).values_ = 9 ∧
     (GaussNewtonOptimizer.update testCaps testHeapA testStateA none (some 9) none).graph_ = testStateA.graph_ ∧
     (GaussNewtonOptimizer.update testCaps testHeapA testStateA none (some 9) none).params_ = testStateA.params_) ∧
    ((GaussNewtonOptimizer.update testCaps testHeapA testStateA none none (some 0)).params_ = 0 ∧
     (GaussNewtonOptimizer.update testCaps testHeapA testStateA none none (some 0)).graph_ = testStateA.graph_ ∧
     (GaussNewtonOptimizer.update testCaps testHeapA testStateA none none (some 0)).values_ = testStateA.values_) :=
  ⟨by decide,
   update_selective_replacement testCaps testHeapA testStateA 9 9 0
     GaussNewtonParams.mkDefault (by decide)⟩

/-- C10: update with a non-empty params pointer whose dynamic type is not
GaussNewtonParams does not fail: the dynamic cast yields an empty pointer,
the supplied params are ignored, and the result retains the original
state's params address; the call behaves exactly like update with the
params argument omitted. -/
theorem update_foreign_params_ignored (caps : Caps) (h : Heap)
    (s : GaussNewtonOptimizer) (ng nv : Option Addr) (pa : Addr) (tag : Nat)
    (hpa : h.paramsAt pa = ParamsObj.other tag) :
    dynCastGN h (some pa) = none ∧
    (GaussNewtonOptimizer.update caps h s ng nv (some pa)).params_ = s.params_ ∧
    GaussNewtonOptimizer.update caps h s ng nv (some pa) =
      GaussNewtonOptimizer.update caps h s ng nv none := by
  have hc : dynCastGN h (some pa) = none := by simp [dynCastGN, hpa]
  refine ⟨hc, ?_, ?_⟩ <;> simp [GaussNewtonOptimizer.update, updateCtor, dynCastGN, hpa]

/-- C10 witness: in a concrete heap whose address 1 holds a params object
of a foreign dynamic type, update ignores it and keeps the original params
address. -/
theorem update_foreign_params_ignored_witness :
    testHeapOther.paramsAt 1 = ParamsObj.other 5 ∧
    (dynCastGN testHeapOther (some 1) = none ∧
     (GaussNewtonOptimizer.update testCaps testHeapOther testStateA none none (some 1)).params_ = testStateA.params_ ∧
     GaussNewtonOptimizer.update testCaps testHeapOther testStateA none none (some 1) =
       GaussNewtonOptimizer.update testCaps testHeapOther testStateA none none none) :=
  ⟨by decide,
   update_foreign_params_ignored testCaps testHeapOther testStateA none none 1 5 (by decide)⟩

/-- Shape of a successful iterate: the heap is extended with one fresh
values object and the returned state holds the fresh values address, the
error at the new values, the incremented iteration count, and the original
graph and params addresses. -/
theorem iterate_ok_destruct (caps : Caps) (h : Heap) (s : GaussNewtonOptimizer)
    (h' : Heap) (s' : GaussNewtonOptimizer)
    (hok : GaussNewtonOptimizer.iterate caps h s = Except.ok (h', s')) :
    ∃ v2 : ValuesData,
      h' = { h with values := h.values ++ [v2] } ∧
      s' = mkWithErrorIter s.graph_ h.values.length s.params_
             (caps.errorAt (h.graphAt s.graph_) v2) (s.iterations_ + 1) := by
  simp only [GaussNewtonOptimizer.iterate] at hok
  split at hok
  · exact absurd hok (by simp)
  · split at hok
    · exact absurd hok (by simp)
    · split at hok
      · exact absurd hok (by simp)
      · simp only [Heap.allocValues, Except.ok.injEq, Prod.mk.injEq] at hok
        exact ⟨_, hok.1.symm, hok.2.symm⟩

/-- C1: a successful iterate returns a state whose iteration count is the
input's plus one, whose values pointer is freshly allocated (the next free
address, hence distinct from every live values address, in particular the
input state's), whose error is the objective evaluated at the new values,
and whose graph and params pointers are identical to the input state's. -/
theorem iterate_new_state_shares_graph_config (caps : Caps) (h h' : Heap)
    (s s' : GaussNewtonOptimizer)
    (hok : GaussNewtonOptimizer.iterate caps h s = Except.ok (h', s')) :
    s'.iterations_ = s.iterations_ + 1 ∧
    s'.graph_ = s.graph_ ∧
    s'.params_ = s.params_ ∧
    s'.values_ = h.values.length ∧
    (s.values_ < h.values.length → s'.values_ ≠ s.values_) ∧
    s'.error_ = caps.errorAt (h'.graphAt s'.graph_) (h'.valuesAt s'.values_) := by
  obtain ⟨v2, hh, hs⟩ := iterate_ok_destruct caps h s h' s' hok
  subst hh hs
  refine ⟨rfl, rfl, rfl, rfl, ?_, ?_⟩
  · intro hv he
    rw [mkWithErrorIter] at he
    exact absurd (he ▸ hv) (lt_irrefl _)
  · simp [mkWithErrorIter, Heap.graphAt, Heap.valuesAt, getD_append_len]

/-- C1 witness: one concrete iterate from the constructed state on graph 7,
values 3, default params produces exactly testStateB in testHeapB. -/
theorem iterate_new_state_shares_graph_config_witness :
    GaussNewtonOptimizer.iterate testCaps testHeapA testStateA =
      Except.ok (testHeapB, testStateB) ∧
    (testStateB.iterations_ = testStateA.iterations_ + 1 ∧
     testStateB.graph_ = testStateA.graph_ ∧
     testStateB.params_ = testStateA.params_ ∧
     testStateB.values_ = testHeapA.values.length ∧
     (testStateA.values_ < testHeapA.values.length → testStateB.values_ ≠ testStateA.values_) ∧
     testStateB.error_ = testCaps.errorAt (testHeapB.graphAt testStateB.graph_)
       (testHeapB.valuesAt testStateB.values_)) :=
  ⟨rfl,
   iterate_new_state_shares_graph_config testCaps testHeapA testHeapB
     testStateA testStateB rfl⟩

/-- C2: no operation mutates the original state or anything it references.
In the model, update and clone read the heap and the state and return only
a fresh record, so they cannot change any heap object or any field of the
original; iterate is the one operation that touches the heap, and it only
allocates: every graph and params object is untouched, every values object
live before the call is untouched, and in particular the graph, values and
params objects referenced by the original state dereference to exactly
their old contents in the returned heap. -/
theorem iterate_preserves_original_objects (caps : Caps) (h h' : Heap)
    (s s' : GaussNewtonOptimizer)
    (hok : GaussNewtonOptimizer.iterate caps h s = Except.ok (h', s'))
    (hv : s.values_ < h.values.length) :
    (∀ a, h'.graphAt a = h.graphAt a) ∧
    (∀ a, a < h.values.length → h'.valuesAt a = h.valuesAt a) ∧
    (∀ a, h'.paramsAt a = h.paramsAt a) ∧
    h'.graphAt s.graph_ = h.graphAt s.graph_ ∧
    h'.valuesAt s.values_ = h.valuesAt s.values_ ∧
    h'.paramsAt s.params_ = h.paramsAt s.params_ := by
  obtain ⟨v2, hh, -⟩ := iterate_ok_destruct caps h s h' s' hok
  subst hh
  refine ⟨fun a => rfl, fun a ha => ?_, fun a => rfl, rfl, ?_, rfl⟩
  · simp only [Heap.valuesAt]
    exact getD_append_of_lt h.values [v2] a 0 ha
  · simp only [Heap.valuesAt]
    exact getD_append_of_lt h.values [v2] s.values_ 0 hv

/-- C2 witness: the concrete iterate from testStateA leaves every object of
testHeapA unchanged in testHeapB. -/
theorem iterate_preserves_original_objects_witness :
    (GaussNewtonOptimizer.iterate testCaps testHeapA testStateA =
       Except.ok (testHeapB, testStateB) ∧
     testStateA.values_ < testHeapA.values.length) ∧
    ((∀ a, testHeapB.graphAt a = testHeapA.graphAt a) ∧
     (∀ a, a < testHeapA.values.length → testHeapB.valuesAt a = testHeapA.valuesAt a) ∧
     (∀ a, testHeapB.paramsAt a = testHeapA.paramsAt a) ∧
     testHeapB.graphAt testStateA.graph_ = testHeapA.graphAt testStateA.graph_ ∧
     testHeapB.valuesAt testStateA.values_ = testHeapA.valuesAt testStateA.values_ ∧
     testHeapB.paramsAt testStateA.params_ = testHeapA.paramsAt testStateA.params_) :=
  ⟨⟨rfl, by decide⟩,
   iterate_preserves_original_objects testCaps testHeapA testHeapB
     testStateA testStateB rfl (by decide)⟩

/-- The state invariant of the spec: the error field equals the objective
evaluated at exactly the state's own graph and values. -/
def errorInvariant (caps : Caps) (h : Heap) (s : GaussNewtonOptimizer) : Prop :=
  s.error_ = caps.errorAt (h.graphAt s.graph_) (h.valuesAt s.values_)

/-- C3: every reachable state (initial construction, iterate, or update
with any combination of replaced graph/values/params) satisfies the
invariant that its error equals the objective at its own graph and values;
the error is never stale relative to the state's own values. -/
theorem reachable_error_never_stale (caps : Caps) (h : Heap)
    (s : GaussNewtonOptimizer) (hr : Reachable caps h s) :
    errorInvariant caps h s := by
  induction hr with
  | mk h g v p =>
      obtain ⟨h1, h2, -⟩ := mk_lookups caps h g v p
      unfold errorInvariant
      rw [h1, h2]
      rfl
  | step h s h' s' hr hok ih =>
      obtain ⟨v2, hh, hs⟩ := iterate_ok_destruct caps h s h' s' hok
      subst hh hs
      unfold errorInvariant
      simp [mkWithErrorIter, Heap.graphAt, Heap.valuesAt, getD_append_len]
  | update h s ng nv np hr ih =>
      unfold errorInvariant at ih ⊢
      cases ng <;> cases nv <;>
        simp_all [GaussNewtonOptimizer.update, updateCtor]

/-- C3 witness: the concrete state constructed on graph 7, values 3,
default params satisfies the invariant. -/
theorem reachable_error_never_stale_witness :
    errorInvariant testCaps testHeapA testStateA := by
  have h1 : (mkGaussNewtonOptimizer testCaps testHeap0 7 3
      GaussNewtonParams.mkDefault).1 = testHeapA := by decide
  have h2 : (mkGaussNewtonOptimizer testCaps testHeap0 7 3
      GaussNewtonParams.mkDefault).2 = testStateA := by decide
  have hr := @Reachable.mk testCaps testHeap0 7 3
    GaussNewtonParams.mkDefault
  rw [h1, h2] at hr
  exact reachable_error_never_stale testCaps testHeapA testStateA hr

/-- C9: constructing an optimizer with a non-empty ordering whose key set
differs from the graph's keys is not an error: the constructor stores the
supplied graph, values and params unvalidated.  The mismatch is detected at
solve time: iterate on the constructed state fails with
ConfigurationMismatch. -/
theorem mismatched_ordering_fails_at_solve_time (caps : Caps) (h : Heap)
    (g : GraphData) (v : ValuesData) (p : GaussNewtonParams)
    (hne : p.ordering ≠ [])
    (hmm : sameKeySet p.ordering (caps.graphKeys g) = false) :
    (mkGaussNewtonOptimizer caps h g v p).1.graphAt
        (mkGaussNewtonOptimizer caps h g v p).2.graph_ = g ∧
    (mkGaussNewtonOptimizer caps h g v p).1.valuesAt
        (mkGaussNewtonOptimizer caps h g v p).2.values_ = v ∧
    (mkGaussNewtonOptimizer caps h g v p).1.paramsAt
        (mkGaussNewtonOptimizer caps h g v p).2.params_ = ParamsObj.gn p ∧
    (mkGaussNewtonOptimizer caps h g v p).2.iterations_ = 0 ∧
    GaussNewtonOptimizer.iterate caps (mkGaussNewtonOptimizer caps h g v p).1
      (mkGaussNewtonOptimizer caps h g v p).2 =
      Except.error SolveError.ConfigurationMismatch := by
  obtain ⟨h1, h2, h3⟩ := mk_lookups caps h g v p
  refine ⟨h1, h2, h3, rfl, ?_⟩
  have hp : (mkGaussNewtonOptimizer caps h g v p).1.gnParamsAt
      (mkGaussNewtonOptimizer caps h g v p).2.params_ = p := by
    simp [Heap.gnParamsAt, h3]
  obtain ⟨a, t, hop⟩ := List.exists_cons_of_ne_nil hne
  rw [hop] at hmm
  simp [GaussNewtonOptimizer.iterate, hp, h1, hop, hmm]

/-- C9 witness: graph 7 has key set containing only 7, while the supplied
ordering covers keys 1 and 2; construction stores everything unvalidated
and iterate fails with ConfigurationMismatch. -/
theorem mismatched_ordering_fails_at_solve_time_witness :
    (({ elimination := Elimination.MULTIFRONTAL,
        factorization := Factorization.LDL,
        ordering := [1, 2] } : GaussNewtonParams).ordering ≠ [] ∧
     sameKeySet [1, 2] (testCaps.graphKeys 7) = false) ∧
    ((mkGaussNewtonOptimizer testCaps testHeap0 7 3
        { elimination := Elimination.MULTIFRONTAL,
          factorization := Factorization.LDL,
          ordering := [1, 2] }).1.graphAt
          (mkGaussNewtonOptimizer testCaps testHeap0 7 3
            { elimination := Elimination.MULTIFRONTAL,
              factorization := Factorization.LDL,
              ordering := [1, 2] }).2.graph_ = 7 ∧
     (mkGaussNewtonOptimizer testCaps testHeap0 7 3
        { elimination := Elimination.MULTIFRONTAL,
          factorization := Factorization.LDL,
          ordering := [1, 2] }).1.valuesAt
          (mkGaussNewtonOptimizer testCaps testHeap0 7 3
            { elimination := Elimination.MULTIFRONTAL,
              factorization := Factorization.LDL,
              ordering := [1, 2] }).2.values_ = 3 ∧
     (mkGaussNewtonOptimizer testCaps testHeap0 7 3
        { elimination := Elimination.MULTIFRONTAL,
          factorization := Factorization.LDL,
          ordering := [1, 2] }).1.paramsAt
          (mkGaussNewtonOptimizer testCaps testHeap0 7 3
            { elimination := Elimination.MULTIFRONTAL,
              factorization := Factorization.LDL,
              ordering := [1, 2] }).2.params_ =
        ParamsObj.gn { elimination := Elimination.MULTIFRONTAL,
                       factorization := Factorization.LDL,
                       ordering := [1, 2] } ∧
     (mkGaussNewtonOptimizer testCaps testHeap0 7 3
        { elimination := Elimination.MULTIFRONTAL,
          factorization := Factorization.LDL,
          ordering := [1, 2] }).2.iterations_ = 0 ∧
     GaussNewtonOptimizer.iterate testCaps
       (mkGaussNewtonOptimizer testCaps testHeap0 7 3
         { elimination := Elimination.MULTIFRONTAL,
           factorization := Factorization.LDL,
           ordering := [1, 2] }).1
       (mkGaussNewtonOptimizer testCaps testHeap0 7 3
         { elimination := Elimination.MULTIFRONTAL,
           factorization := Factorization.LDL,
           ordering := [1, 2] }).2 =
       Except.error SolveError.ConfigurationMismatch) :=
  ⟨⟨by decide, by decide⟩,
   mismatched_ordering_fails_at_solve_time testCaps testHeap0 7 3
     { elimination := Elimination.MULTIFRONTAL,
       factorization := Factorization.LDL,
       ordering := [1, 2] } (by decide) (by decide)⟩

end GtsamGN
